import Mathlib

set_option maxRecDepth 8000

/-!
Verification of the YouTube-transcript content generator (`app.py`).

The Python string primitives the program uses (`in`, `split`, `split(sep, 1)`,
`join`, `strip`, `startswith`) are embedded on `List Char`; the program's
functions (`extract_video_id`, `extract_transcript_details`,
`generate_gemini_content`, the content assembler of the Generate-Content
handler, and `create_pdf`) are translated on top of them.  External
collaborators (the transcript provider, the Gemini model, the filesystem
fonts, the Streamlit widgets) are passed in as explicit oracles, and the
Streamlit calls the code makes are recorded as a list of UI effects.
-/

deriving instance DecidableEq for Except

namespace YTApp

/-- Python `sep in s` (substring containment) on character lists. -/
def containsSub (sep : List Char) : List Char → Bool
  | [] => sep.isPrefixOf []
  | c :: rest => sep.isPrefixOf (c :: rest) || containsSub sep rest

/-- The part of `s` strictly before the first occurrence of `sep`
(all of `s` when `sep` does not occur). -/
def takeUntilSub (sep : List Char) : List Char → List Char
  | [] => []
  | c :: rest => if sep.isPrefixOf (c :: rest) then [] else c :: takeUntilSub sep rest

/-- The part of `s` strictly after the first occurrence of `sep`
(`[]` when `sep` does not occur). -/
def afterFirstSub (sep : List Char) : List Char → List Char
  | [] => []
  | c :: rest =>
    if sep.isPrefixOf (c :: rest) then (c :: rest).drop sep.length else afterFirstSub sep rest

/-- Prepend a character to the first piece of a split result. -/
def consHead (c : Char) : List (List Char) → List (List Char)
  | [] => [[c]]
  | p :: ps => (c :: p) :: ps

/-- Fuelled worker for Python `str.split(sep)`: scan left to right, cutting at
every non-overlapping occurrence of `sep`. -/
def pysplitF (sep : List Char) : Nat → List Char → List (List Char)
  | 0, s => [s]
  | _ + 1, [] => [[]]
  | n + 1, c :: rest =>
    if sep.isPrefixOf (c :: rest) then [] :: pysplitF sep n ((c :: rest).drop sep.length)
    else consHead c (pysplitF sep n rest)

/-- Python `s.split(sep)` for a non-empty separator. -/
def pysplit (sep s : List Char) : List (List Char) := pysplitF sep s.length s

/-- Python `s.split(sep, 1)`: split at the first occurrence only. -/
def pysplit1 (sep s : List Char) : List (List Char) :=
  if containsSub sep s then [takeUntilSub sep s, afterFirstSub sep s] else [s]

/-- Python `sep.join(xs)`. -/
def pyjoin (sep : String) : List String → String
  | [] => ""
  | [x] => x
  | x :: y :: xs => x ++ sep ++ pyjoin sep (y :: xs)

/-- The whitespace characters removed by Python `str.strip()`. -/
def isPyWs (c : Char) : Bool :=
  c == ' ' || c == '\t' || c == '\n' || c == '\r' || c == '\x0b' || c == '\x0c'

/-- Python `s.lstrip()`. -/
def pylstrip (s : List Char) : List Char := s.dropWhile isPyWs

/-- Python `s.rstrip()`. -/
def pyrstrip (s : List Char) : List Char := (s.reverse.dropWhile isPyWs).reverse

/-- Python `s.strip()`. -/
def pystrip (s : List Char) : List Char := pyrstrip (pylstrip s)

/-- `extract_video_id` (app.py lines 33-40): `youtu.be/` URLs are handled by
`url.split("youtu.be/")[1].split("?")[0]`, `youtube.com/watch?v=` URLs by
`url.split("v=")[1].split("&")[0]`, and anything else raises
`ValueError("Invalid YouTube URL")`.  The guarding `in`-checks make the `[1]`
indexings safe, so they are rendered with `getD`. -/
def extract_video_id (youtube_url : List Char) : Except String (List Char) :=
  if containsSub "youtu.be/".data youtube_url then
    .ok ((pysplit "?".data ((pysplit "youtu.be/".data youtube_url).getD 1 [])).getD 0 [])
  else if containsSub "youtube.com/watch?v=".data youtube_url then
    .ok ((pysplit "&".data ((pysplit "v=".data youtube_url).getD 1 [])).getD 0 [])
  else .error "Invalid YouTube URL"

/-- C1 as the claim words it: the identifier is the segment after the first
`youtu.be/` up to the next `?` (resp. after the first `v=` up to the next
`&`).  Kept separate from `extract_video_id`, which is translated from the
source, so the two can be compared. -/
def extract_video_id_claim (url : List Char) : Except String (List Char) :=
  if containsSub "youtu.be/".data url then
    .ok (takeUntilSub "?".data (afterFirstSub "youtu.be/".data url))
  else if containsSub "youtube.com/watch?v=".data url then
    .ok (takeUntilSub "&".data (afterFirstSub "v=".data url))
  else .error "Invalid YouTube URL"

/-- A transcript entry as returned by the provider: a `text` field plus
whatever timing/speaker metadata the provider attaches (`meta`, of an
arbitrary type, since the program never reads it). -/
structure Segment (α : Type) where
  text : String
  meta : α
  deriving DecidableEq

/-- Outcome of one `YouTubeTranscriptApi.get_transcript` call: a transcript,
the distinct `TranscriptsDisabled` exception, or any other exception. -/
inductive FetchResult (α : Type) where
  | ok (transcript : List (Segment α))
  | disabled
  | err (msg : String)
  deriving DecidableEq

def FetchResult.isDisabled {α : Type} : FetchResult α → Bool
  | .disabled => true
  | _ => false

/-- What `extract_transcript_details` did: its return value, the provider
calls it made (video id and the `languages` argument of each), and whether it
displayed an error via `st.error`. -/
structure RetrievalResult where
  result : Option String
  calls : List (List Char × Option (List String))
  error_shown : Bool
  deriving DecidableEq

/-- `extract_transcript_details` (app.py lines 42-54).  The provider is the
oracle `get_transcript`; the first call passes `languages=['en']`, and only a
`TranscriptsDisabled` outcome of that call triggers the single unconstrained
retry.  Every failure path is caught by the outer `except`, shows an error and
returns `None`. -/
def extract_transcript_details {α : Type}
    (get_transcript : List Char → Option (List String) → FetchResult α)
    (youtube_video_url : List Char) : RetrievalResult :=
  match extract_video_id youtube_video_url with
  | .error _ => ⟨none, [], true⟩
  | .ok video_id =>
    match get_transcript video_id (some ["en"]) with
    | .ok transcript =>
      ⟨some (pyjoin " " (transcript.map (fun entry => entry.text))),
        [(video_id, some ["en"])], false⟩
    | .disabled =>
      match get_transcript video_id none with
      | .ok transcript =>
        ⟨some (pyjoin " " (transcript.map (fun entry => entry.text))),
          [(video_id, some ["en"]), (video_id, none)], false⟩
      | .disabled => ⟨none, [(video_id, some ["en"]), (video_id, none)], true⟩
      | .err _ => ⟨none, [(video_id, some ["en"]), (video_id, none)], true⟩
    | .err _ => ⟨none, [(video_id, some ["en"])], true⟩

/-- What `generate_gemini_content` did: its return value, the model calls it
made, and whether it displayed an error. -/
structure GenResult where
  result : Option String
  calls : List String
  error_shown : Bool
  deriving DecidableEq

/-- `generate_gemini_content` (app.py lines 56-64): one call on
`prompt + transcript_text`; any error is shown and turned into `None`. -/
def generate_gemini_content (generate : String → Except String String)
    (transcript_text prompt : String) : GenResult :=
  match generate (prompt ++ transcript_text) with
  | .ok text => ⟨some text, [prompt ++ transcript_text], false⟩
  | .error _ => ⟨none, [prompt ++ transcript_text], true⟩

/-- Prompt constants (app.py lines 16-19). -/
def summary_prompt : String :=
  "You are a YouTube video summarizer. Provide a concise summary of the following transcript within 250 words: "

def key_points_prompt : String :=
  "Extract and list the key points from the following video transcript: "

def qa_prompt : String :=
  "Based on the following video transcript, generate 5 relevant questions and their answers. Format each as 'Question: [question]' followed by 'Answer: [answer]' without any asterisks or additional formatting: "

def code_explanation_prompt : String :=
  "Extract the code snippets from the following video transcript and provide a detailed explanation for each code snippet: "

/-- Python truthiness of an `Optional[str]`: `None` and `""` are falsy. -/
def pytruthy : Option String → Bool
  | none => false
  | some s => !(s == "")

/-- The content assembly of the Generate-Content handler (app.py lines
191-210).  `generated prompt` is the value of
`generate_gemini_content(transcript_text, prompt)`; each section is appended
only when its checkbox is ticked and the result is truthy (`if summary:`
etc.). -/
def assembled (generated : String → Option String)
    (include_key_points include_qa include_code_explanation : Bool) : String :=
  let content := ""
  let content := if pytruthy (generated summary_prompt) then
      content ++ "## Summary:\n" ++ (generated summary_prompt).getD "" ++ "\n\n"
    else content
  let content := if include_key_points then
      if pytruthy (generated key_points_prompt) then
        content ++ "## Key Points:\n" ++ (generated key_points_prompt).getD "" ++ "\n\n"
      else content
    else content
  let content := if include_qa then
      if pytruthy (generated qa_prompt) then
        content ++ "## Questions and Answers:\n" ++ (generated qa_prompt).getD "" ++ "\n\n"
      else content
    else content
  let content := if include_code_explanation then
      if pytruthy (generated code_explanation_prompt) then
        content ++ "## Code Explanation:\n" ++ (generated code_explanation_prompt).getD "" ++ "\n\n"
      else content
    else content
  content

/-- One section block as C3 words it: appended whenever the generation result
is non-null. -/
def sectionBlock (heading : String) : Option String → String
  | some body => "## " ++ heading ++ ":\n" ++ body ++ "\n\n"
  | none => ""

/-- The assembler as C3 words it (append for every non-null result), for
comparison with `assembled`. -/
def assembled_claim (generated : String → Option String) (kp qa ce : Bool) : String :=
  sectionBlock "Summary" (generated summary_prompt)
    ++ (if kp then sectionBlock "Key Points" (generated key_points_prompt) else "")
    ++ (if qa then sectionBlock "Questions and Answers" (generated qa_prompt) else "")
    ++ (if ce then sectionBlock "Code Explanation" (generated code_explanation_prompt) else "")

/-- One section block as the code behaves: appended only for a truthy
(non-null, non-empty) result. -/
def sectionBlockT (heading : String) (r : Option String) : String :=
  if pytruthy r then "## " ++ heading ++ ":\n" ++ r.getD "" ++ "\n\n" else ""

/-- A generator oracle realizing C3's example map
`{Summary: "S", Key Points: None, Q&A: "Q"}`. -/
def genEx : String → Option String := fun p =>
  if p == summary_prompt then some "S" else if p == qa_prompt then some "Q" else none

/-- Which branch of `create_pdf`'s body loop emitted a rendered line. -/
inductive LineKind where
  | videoTitle | sectionTitle | question | answer | bullet | codeLine | plain
  deriving DecidableEq

/-- One `pdf.cell` / `pdf.multi_cell` emission: the font in force when it was
printed (family, style, size, as set by `pdf.set_font`) plus its text. -/
structure RenderedLine where
  family : String
  style : String
  size : Nat
  text : List Char
  kind : LineKind
  deriving DecidableEq

/-- The mutable state of `create_pdf`'s per-section body loop (app.py lines
105-142): the current font, the `in_code_block` flag, the `code_buffer`, and
the lines emitted so far. -/
structure BodyState where
  family : String
  style : String
  size : Nat
  in_code_block : Bool
  code_buffer : List (List Char)
  out : List RenderedLine
  deriving DecidableEq

/-- A buffered code line as flushed at a closing fence: Courier 10. -/
def codeElem (l : List Char) : RenderedLine := ⟨"Courier", "", 10, l, .codeLine⟩

/-- One iteration of `for paragraph in body.split("\n")` (app.py lines
109-142), translated branch by branch. -/
def renderParagraph (st : BodyState) (paragraph : List Char) : BodyState :=
  if "```".data.isPrefixOf (pystrip paragraph) then
    if st.in_code_block then
      { family := "DejaVu", style := "", size := 11, in_code_block := false,
        code_buffer := [], out := st.out ++ st.code_buffer.map codeElem }
    else
      { st with in_code_block := true }
  else if st.in_code_block then
    { st with code_buffer := st.code_buffer ++ [paragraph] }
  else if "Question:".data.isPrefixOf paragraph then
    { st with
        family := "DejaVu", style := "", size := 11,
        out := st.out ++ [⟨"DejaVu", "B", 11, paragraph, .question⟩] }
  else if "Answer:".data.isPrefixOf paragraph then
    { st with out := st.out ++ [⟨st.family, st.style, st.size, paragraph, .answer⟩] }
  else if "*".data.isPrefixOf paragraph then
    if "* Key Points:".data.isPrefixOf paragraph then st
    else
      { st with
          family := "DejaVu", style := "", size := 11,
          out := st.out ++ [⟨"DejaVu", "", 11, "• ".data ++ pystrip (paragraph.drop 1), .bullet⟩] }
  else
    { st with out := st.out ++ [⟨st.family, st.style, st.size, paragraph, .plain⟩] }

def renderParagraphs (st : BodyState) (paragraphs : List (List Char)) : BodyState :=
  paragraphs.foldl renderParagraph st

/-- The state at the top of a section body: `pdf.set_font("DejaVu", "", 11)`,
`in_code_block = False`, `code_buffer = []` (app.py lines 105-107). -/
def initBodyState : BodyState := ⟨"DejaVu", "", 11, false, [], []⟩

/-- The lines a section body produces; an unflushed `code_buffer` is discarded
when the loop ends. -/
def renderBody (body : List Char) : List RenderedLine :=
  (renderParagraphs initBodyState (pysplit "\n".data body)).out

/-- One iteration of `for section in sections[1:]` (app.py lines 92-144):
blank chunks (`section.strip() == ""`) are skipped; otherwise
`lines = section.split("\n", 1)` gives the title and the body. -/
def renderSection (chunk : List Char) : List RenderedLine :=
  if pystrip chunk == [] then []
  else
    ⟨"DejaVu", "B", 12, (pysplit1 "\n".data chunk).getD 0 [], .sectionTitle⟩ ::
      renderBody ((pysplit1 "\n".data chunk).getD 1 [])

/-- `sections = content.split("## ")` and the loop over `sections[1:]`
(app.py lines 90-144). -/
def renderContent (content : List Char) : List RenderedLine :=
  ((pysplit "## ".data content).drop 1).foldl (fun acc chunk => acc ++ renderSection chunk) []

/-- The renderer as C8 words it: every non-empty chunk of the `"## "` split
becomes a section whose first line is the heading and whose remainder is the
body.  Kept separate from `renderSection` for comparison. -/
def renderSection_claim (chunk : List Char) : List RenderedLine :=
  if chunk == [] then []
  else
    ⟨"DejaVu", "B", 12, takeUntilSub "\n".data chunk, .sectionTitle⟩ ::
      renderBody (if containsSub "\n".data chunk then afterFirstSub "\n".data chunk else [])

def renderContent_claim (content : List Char) : List RenderedLine :=
  (pysplit "## ".data content).foldl (fun acc chunk => acc ++ renderSection_claim chunk) []

/-- The filesystem facts `create_pdf` checks: whether the three DejaVu font
files exist, and whether `add_font` succeeds on them. -/
structure FontEnv where
  files_present : Bool
  load_ok : Bool
  deriving DecidableEq

/-- A Streamlit call made by the Generate-Content handler or by `create_pdf`:
`st.error`, `st.markdown`, or `st.download_button` (with its `data`,
`file_name` and `mime` arguments). -/
inductive UIEffect where
  | errorMsg (msg : String)
  | markdown (text : String)
  | downloadButton (data : Option (List RenderedLine)) (file_name : String) (mime : String)
  deriving DecidableEq

/-- `create_pdf` (app.py lines 66-146): missing or unloadable fonts show an
error and return `None`; otherwise the document is the `Video Title:` line
followed by the rendered content.  Returns the value together with the
`st.error` effects it produced. -/
def create_pdf (fonts : FontEnv) (content video_title : String) :
    Option (List RenderedLine) × List UIEffect :=
  if !fonts.files_present then
    (none, [.errorMsg "Font files not found. Please make sure the DejaVu font files are present in the same directory as this script."])
  else if !fonts.load_ok then
    (none, [.errorMsg "Error loading fonts"])
  else
    (some (⟨"DejaVu", "B", 14, ("Video Title: " ++ video_title).data, .videoTitle⟩ ::
      renderContent content.data), [])

/-- App.py lines 212-225: `if content:` shows the markdown, builds the PDF and
unconditionally calls `st.download_button` with `data=pdf_data`,
`file_name=f"{video_title}_summary.pdf"`, `mime="application/pdf"`; an empty
content shows an error instead. -/
def renderAndOffer (fonts : FontEnv) (content video_title : String) : List UIEffect :=
  if content == "" then [.errorMsg "Failed to generate content."]
  else
    [.markdown content] ++ (create_pdf fonts content video_title).2 ++
      [.downloadButton (create_pdf fonts content video_title).1
        (video_title ++ "_summary.pdf") "application/pdf"]

/-- The characters C4 says are stripped from the title. -/
def illegal_filename_chars : List Char := "\\/*?:\"<>|".data

/-- Sanitization as C4 words it (no such code exists in app.py). -/
def sanitize_title (title : String) : String :=
  ⟨title.data.filter (fun c => !(illegal_filename_chars.contains c))⟩

/-- The `st.download_button` invocations among a list of effects. -/
def offeredDownloads (effects : List UIEffect) :
    List (Option (List RenderedLine) × String × String) :=
  effects.filterMap fun e => match e with
    | .downloadButton d n m => some (d, n, m)
    | _ => none

/-- The `file_name` of the first offered download, if any. -/
def offeredFileName (effects : List UIEffect) : Option String :=
  effects.findSome? fun e => match e with
    | .downloadButton _ n _ => some n
    | _ => none

/-- The font discipline of the body renderer: questions are emitted in DejaVu
bold 11; answers and plain paragraphs are emitted in DejaVu regular 11. -/
def lineOk (e : RenderedLine) : Prop :=
  (e.kind = .question → e.family = "DejaVu" ∧ e.style = "B" ∧ e.size = 11) ∧
  (e.kind = .answer → e.family = "DejaVu" ∧ e.style = "" ∧ e.size = 11) ∧
  (e.kind = .plain → e.family = "DejaVu" ∧ e.style = "" ∧ e.size = 11)

/-- The font invariant of the body loop between paragraphs. -/
def fontInv (st : BodyState) : Prop :=
  st.family = "DejaVu" ∧ st.style = "" ∧ st.size = 11

/-! ## Lemmas about the embedded Python string primitives -/

theorem boolFalseOfNotTrue {b : Bool} (h : ¬ b = true) : b = false := by
  cases b with
  | false => rfl
  | true => exact absurd rfl h

theorem isPrefixOf_iff_append (l₁ : List Char) :
    ∀ l₂ : List Char, l₁.isPrefixOf l₂ = true ↔ ∃ t, l₂ = l₁ ++ t := by
  induction l₁ with
  | nil => intro l₂; simp [List.isPrefixOf]
  | cons a as ih =>
    intro l₂
    cases l₂ with
    | nil => simp [List.isPrefixOf]
    | cons b bs =>
      simp only [List.isPrefixOf, Bool.and_eq_true, beq_iff_eq, ih bs, List.cons_append,
        List.cons.injEq]
      constructor
      · rintro ⟨rfl, t, rfl⟩; exact ⟨t, rfl, rfl⟩
      · rintro ⟨t, rfl, rfl⟩; exact ⟨rfl, t, rfl⟩

theorem isPrefixOf_nil_iff (l : List Char) : l.isPrefixOf [] = true ↔ l = [] := by
  cases l <;> simp [List.isPrefixOf]

theorem pysplitF_congr (sep : List Char) (hsep : sep ≠ []) :
    ∀ (n m : Nat) (s : List Char), s.length ≤ n → s.length ≤ m →
      pysplitF sep n s = pysplitF sep m s := by
  intro n
  induction n with
  | zero =>
    intro m s hn _
    have hs : s = [] := List.length_eq_zero.mp (Nat.le_zero.mp hn)
    subst hs
    cases m <;> rfl
  | succ n ih =>
    intro m s hn hm
    cases s with
    | nil => cases m <;> rfl
    | cons c rest =>
      cases m with
      | zero => simp at hm
      | succ m =>
        have hsep1 : 1 ≤ sep.length := List.length_pos.mpr hsep
        simp only [List.length_cons, Nat.succ_le_succ_iff] at hn hm
        show (if sep.isPrefixOf (c :: rest) then _ else _) =
          (if sep.isPrefixOf (c :: rest) then _ else _)
        by_cases h : sep.isPrefixOf (c :: rest) = true
        · simp only [h, if_true]
          have hd : ((c :: rest).drop sep.length).length ≤ rest.length := by
            simp only [List.length_drop, List.length_cons]
            omega
          rw [ih m _ (le_trans hd hn) (le_trans hd hm)]
        · have hb : sep.isPrefixOf (c :: rest) = false := boolFalseOfNotTrue h
          simp [hb, ih m rest hn hm]

theorem pysplit_eq (sep : List Char) (hsep : sep ≠ []) :
    ∀ s : List Char,
      pysplit sep s =
        takeUntilSub sep s ::
          (if containsSub sep s then pysplit sep (afterFirstSub sep s) else []) := by
  intro s
  induction s with
  | nil =>
    have h : sep.isPrefixOf [] = false := by
      cases hh : sep.isPrefixOf [] with
      | false => rfl
      | true => exact absurd ((isPrefixOf_nil_iff sep).mp hh) hsep
    simp [pysplit, pysplitF, takeUntilSub, containsSub, h]
  | cons c rest ih =>
    show pysplitF sep (rest.length + 1) (c :: rest) = _
    by_cases h : sep.isPrefixOf (c :: rest) = true
    · have hsep1 : 1 ≤ sep.length := List.length_pos.mpr hsep
      have hd : ((c :: rest).drop sep.length).length ≤ rest.length := by
        simp only [List.length_drop, List.length_cons]; omega
      simp only [pysplitF, h, if_true, takeUntilSub, containsSub, Bool.true_or,
        afterFirstSub]
      rw [pysplitF_congr sep hsep rest.length ((c :: rest).drop sep.length).length _ hd le_rfl]
      rfl
    · simp only [pysplitF, h, if_false, takeUntilSub, containsSub, Bool.false_or,
        afterFirstSub, Bool.not_eq_true] at *
      have : pysplitF sep rest.length rest = pysplit sep rest := rfl
      rw [this, ih]
      rfl

theorem pysplit_getD_zero (sep : List Char) (hsep : sep ≠ []) (s : List Char) :
    (pysplit sep s).getD 0 [] = takeUntilSub sep s := by
  rw [pysplit_eq sep hsep s]; rfl

theorem pysplit_getD_one (sep : List Char) (hsep : sep ≠ []) (s : List Char)
    (h : containsSub sep s = true) :
    (pysplit sep s).getD 1 [] = takeUntilSub sep (afterFirstSub sep s) := by
  rw [pysplit_eq sep hsep s, h]
  simp only [if_true]
  show (pysplit sep (afterFirstSub sep s)).getD 0 [] = _
  exact pysplit_getD_zero sep hsep _

theorem containsSub_iff (sep : List Char) :
    ∀ s : List Char, containsSub sep s = true ↔ ∃ l r, s = l ++ sep ++ r := by
  intro s
  induction s with
  | nil =>
    simp only [containsSub, isPrefixOf_nil_iff]
    constructor
    · rintro rfl; exact ⟨[], [], rfl⟩
    · rintro ⟨l, r, h⟩
      exact (List.append_eq_nil.mp (List.append_eq_nil.mp h.symm).1).2
  | cons c rest ih =>
    simp only [containsSub, Bool.or_eq_true, isPrefixOf_iff_append, ih]
    constructor
    · rintro (⟨t, h⟩ | ⟨l, r, rfl⟩)
      · exact ⟨[], t, by simp [h]⟩
      · exact ⟨c :: l, r, by simp⟩
    · rintro ⟨l, r, h⟩
      cases l with
      | nil => exact Or.inl ⟨r, by simpa using h⟩
      | cons x xs =>
        simp only [List.cons_append, List.cons.injEq] at h
        exact Or.inr ⟨xs, r, h.2⟩

/-! ## C1: the URL parser -/

/-- C1 (amended): for every URL string, if it contains `youtu.be/`, the
extracted identifier is the segment after the first `youtu.be/` truncated at
the next later occurrence of `youtu.be/` (if any) and then at the next `?`;
else if it contains `youtube.com/watch?v=`, the identifier is the segment
after the first `v=` truncated at the next later occurrence of `v=` (if any)
and then at the next `&`; else extraction fails with the invalid-input
error. -/
theorem c1_extract_video_id (url : List Char) :
    extract_video_id url =
      (if containsSub "youtu.be/".data url then
        .ok (takeUntilSub "?".data (takeUntilSub "youtu.be/".data
          (afterFirstSub "youtu.be/".data url)))
      else if containsSub "youtube.com/watch?v=".data url then
        .ok (takeUntilSub "&".data (takeUntilSub "v=".data
          (afterFirstSub "v=".data url)))
      else .error "Invalid YouTube URL") := by
  unfold extract_video_id
  by_cases h1 : containsSub "youtu.be/".data url = true
  · simp only [h1, if_true]
    rw [pysplit_getD_one _ (by decide) _ h1, pysplit_getD_zero _ (by decide)]
  · have hb1 : containsSub "youtu.be/".data url = false := by simpa using h1
    by_cases h2 : containsSub "youtube.com/watch?v=".data url = true
    · have hv : containsSub "v=".data url = true := by
        rcases (containsSub_iff _ url).mp h2 with ⟨l, r, rfl⟩
        refine (containsSub_iff _ _).mpr ⟨l ++ "youtube.com/watch?".data, r, ?_⟩
        have hw : "youtube.com/watch?v=".data = "youtube.com/watch?".data ++ "v=".data := rfl
        rw [hw]
        simp [List.append_assoc]
      have e1 : (pysplit "&".data ((pysplit "v=".data url).getD 1 [])).getD 0 [] =
          takeUntilSub "&".data (takeUntilSub "v=".data (afterFirstSub "v=".data url)) := by
        rw [pysplit_getD_one _ (by decide) _ hv, pysplit_getD_zero _ (by decide)]
      rw [if_neg h1, if_neg h1, if_pos h2, if_pos h2, e1]
    · rw [if_neg h1, if_neg h1, if_neg h2, if_neg h2]

/-- C1 counterexample: on a URL with a repeated `youtu.be/` marker the code
truncates the identifier at the second marker, while the claim's reading
(everything after the first `youtu.be/` up to the next `?`) keeps it. -/
theorem c1_counterexample :
    extract_video_id "youtu.be/abyoutu.be/cd".data = .ok "ab".data ∧
    extract_video_id_claim "youtu.be/abyoutu.be/cd".data = .ok "abyoutu.be/cd".data ∧
    extract_video_id "youtu.be/abyoutu.be/cd".data ≠
      extract_video_id_claim "youtu.be/abyoutu.be/cd".data := by
  refine ⟨by decide, by decide, by decide⟩

/-! ## C2: transcript retrieval and language fallback -/

/-- C2: retrieval first calls the provider with `languages=['en']`; exactly
when that call raises `TranscriptsDisabled` it makes one further unconstrained
call; no provider call happens when URL parsing already failed; each outcome
is characterized: a first-call success returns the joined transcript with no
error, a first-call non-disabled failure displays the error and returns null
with no second call, a second-call success after `disabled` returns the
joined transcript, and a second call that fails (again `disabled`, or any
other error) displays the error and returns null.  The result is null exactly
when an error was displayed, and nothing is re-raised — the function is total
into `RetrievalResult`. -/
theorem c2_retrieval {α : Type}
    (get_transcript : List Char → Option (List String) → FetchResult α)
    (url : List Char) :
    (∀ e, extract_video_id url = .error e →
      extract_transcript_details get_transcript url = ⟨none, [], true⟩) ∧
    (∀ vid, extract_video_id url = .ok vid →
      (extract_transcript_details get_transcript url).calls =
        (vid, some ["en"]) ::
          (if (get_transcript vid (some ["en"])).isDisabled then [(vid, none)] else [])) ∧
    (∀ vid segs, extract_video_id url = .ok vid →
      get_transcript vid (some ["en"]) = .ok segs →
      extract_transcript_details get_transcript url =
        ⟨some (pyjoin " " (segs.map (fun entry => entry.text))),
          [(vid, some ["en"])], false⟩) ∧
    (∀ vid m, extract_video_id url = .ok vid →
      get_transcript vid (some ["en"]) = .err m →
      extract_transcript_details get_transcript url =
        ⟨none, [(vid, some ["en"])], true⟩) ∧
    (∀ vid segs, extract_video_id url = .ok vid →
      get_transcript vid (some ["en"]) = .disabled →
      get_transcript vid none = .ok segs →
      extract_transcript_details get_transcript url =
        ⟨some (pyjoin " " (segs.map (fun entry => entry.text))),
          [(vid, some ["en"]), (vid, none)], false⟩) ∧
    (∀ vid, extract_video_id url = .ok vid →
      get_transcript vid (some ["en"]) = .disabled →
      get_transcript vid none = .disabled →
      extract_transcript_details get_transcript url =
        ⟨none, [(vid, some ["en"]), (vid, none)], true⟩) ∧
    (∀ vid m, extract_video_id url = .ok vid →
      get_transcript vid (some ["en"]) = .disabled →
      get_transcript vid none = .err m →
      extract_transcript_details get_transcript url =
        ⟨none, [(vid, some ["en"]), (vid, none)], true⟩) ∧
    ((extract_transcript_details get_transcript url).result = none ↔
      (extract_transcript_details get_transcript url).error_shown = true) := by
  unfold extract_transcript_details
  cases hx : extract_video_id url with
  | error e =>
    exact ⟨fun _ _ => rfl, fun vid h => by simp at h, fun vid segs h => by simp at h,
      fun vid m h => by simp at h, fun vid segs h => by simp at h,
      fun vid h => by simp at h, fun vid m h => by simp at h, by simp⟩
  | ok vid =>
    refine ⟨fun e h => by simp at h, fun v hv => ?_, fun v segs hv h1 => ?_,
      fun v m hv h1 => ?_, fun v segs hv h1 h2 => ?_, fun v hv h1 h2 => ?_,
      fun v m hv h1 h2 => ?_, ?_⟩
    · have hvv : v = vid := by injection hv with h; exact h.symm
      subst hvv
      cases h1 : get_transcript v (some ["en"]) with
      | ok t => simp [h1, FetchResult.isDisabled]
      | disabled =>
        cases h2 : get_transcript v none with
        | ok t => simp [h1, h2, FetchResult.isDisabled]
        | disabled => simp [h1, h2, FetchResult.isDisabled]
        | err m => simp [h1, h2, FetchResult.isDisabled]
      | err m => simp [h1, FetchResult.isDisabled]
    · have hvv : v = vid := by injection hv with h; exact h.symm
      subst hvv
      simp [h1]
    · have hvv : v = vid := by injection hv with h; exact h.symm
      subst hvv
      simp [h1]
    · have hvv : v = vid := by injection hv with h; exact h.symm
      subst hvv
      simp [h1, h2]
    · have hvv : v = vid := by injection hv with h; exact h.symm
      subst hvv
      simp [h1, h2]
    · have hvv : v = vid := by injection hv with h; exact h.symm
      subst hvv
      simp [h1, h2]
    · cases h1 : get_transcript vid (some ["en"]) with
      | ok t => simp [h1]
      | disabled =>
        cases h2 : get_transcript vid none with
        | ok t => simp [h1, h2]
        | disabled => simp [h1, h2]
        | err m => simp [h1, h2]
      | err m => simp [h1]

/-- C2 witness: with a provider that reports `TranscriptsDisabled` for the
constrained call and succeeds unconstrained, retrieval makes exactly the two
calls, the first constrained to `['en']`, the second unconstrained; and with
a provider whose unconstrained call also reports `TranscriptsDisabled`, the
second call fails, an error is displayed and the result is null. -/
theorem c2_retrieval_witness :
    (extract_transcript_details
        (fun _ langs =>
          if langs.isSome then (FetchResult.disabled : FetchResult Unit)
          else .ok [⟨"a", ()⟩, ⟨"b", ()⟩])
        "https://youtu.be/abc?x=y".data).calls =
      [("abc".data, some ["en"]), ("abc".data, none)] ∧
    extract_transcript_details (fun _ _ => (FetchResult.disabled : FetchResult Unit))
        "https://youtu.be/abc?x=y".data =
      ⟨none, [("abc".data, some ["en"]), ("abc".data, none)], true⟩ := by
  constructor
  · have h := (c2_retrieval
        (fun _ langs =>
          if langs.isSome then (FetchResult.disabled : FetchResult Unit)
          else .ok [⟨"a", ()⟩, ⟨"b", ()⟩])
        "https://youtu.be/abc?x=y".data).2.1 "abc".data (by decide)
    exact h.trans (by decide)
  · exact (c2_retrieval (fun _ _ => (FetchResult.disabled : FetchResult Unit))
      "https://youtu.be/abc?x=y".data).2.2.2.2.2.1 "abc".data (by decide) rfl rfl

/-! ## C6: the generation call -/

/-- C6: `generate_gemini_content` makes exactly one model call, on the
undelimited concatenation `prompt ++ transcript`; a successful call returns
the model's text with no error shown; a failing call shows the error and
returns null.  There is no retry and no exception escapes (the function is
total into `GenResult`). -/
theorem c6_generation (generate : String → Except String String)
    (transcript_text prompt : String) :
    (generate_gemini_content generate transcript_text prompt).calls =
      [prompt ++ transcript_text] ∧
    (∀ s, generate (prompt ++ transcript_text) = .ok s →
      generate_gemini_content generate transcript_text prompt =
        ⟨some s, [prompt ++ transcript_text], false⟩) ∧
    (∀ msg, generate (prompt ++ transcript_text) = .error msg →
      generate_gemini_content generate transcript_text prompt =
        ⟨none, [prompt ++ transcript_text], true⟩) := by
  unfold generate_gemini_content
  cases h : generate (prompt ++ transcript_text) with
  | ok s => exact ⟨rfl, fun t ht => by injection ht with h2; rw [h2], fun m hm => by simp at hm⟩
  | error m => exact ⟨rfl, fun t ht => by simp at ht, fun m2 hm => rfl⟩

/-- C6 witness at a concrete echoing model. -/
theorem c6_generation_witness :
    generate_gemini_content (fun q => .ok ("echo " ++ q)) "T" "P" =
      ⟨some ("echo " ++ ("P" ++ "T")), ["P" ++ "T"], false⟩ :=
  (c6_generation (fun q => .ok ("echo " ++ q)) "T" "P").2.1 _ rfl

/-! ## C7: transcript flattening -/

/-- C7: when URL parsing succeeds and the constrained provider call returns a
segment list, the retrieved transcript is exactly the space-join of the
segments' `text` fields in source order; the timing/speaker metadata `meta`
does not occur in the result. -/
theorem c7_flatten {α : Type}
    (get_transcript : List Char → Option (List String) → FetchResult α)
    (url vid : List Char) (segs : List (Segment α))
    (h1 : extract_video_id url = .ok vid)
    (h2 : get_transcript vid (some ["en"]) = .ok segs) :
    (extract_transcript_details get_transcript url).result =
      some (pyjoin " " (segs.map (fun entry => entry.text))) := by
  simp [extract_transcript_details, h1, h2]

/-- C7 witness: segments `["a","b"]` (with distinct numeric metadata that is
ignored) flatten to `"a b"`. -/
theorem c7_flatten_witness :
    (extract_transcript_details
        (fun _ _ => (FetchResult.ok [⟨"a", 0⟩, ⟨"b", 1⟩] : FetchResult Nat))
        "https://youtu.be/xyz".data).result = some "a b" := by
  have h := c7_flatten (fun _ _ => (FetchResult.ok [⟨"a", 0⟩, ⟨"b", 1⟩] : FetchResult Nat))
    "https://youtu.be/xyz".data "xyz".data [⟨"a", 0⟩, ⟨"b", 1⟩] (by decide) rfl
  exact h.trans (by decide)

/-! ## C3: the content assembler -/

/-- C3 counterexample: a non-null but empty generation result (`some ""`) is
falsy under Python's `if summary:` test, so the code appends nothing, while
the claim's reading (append for every non-null result) appends a Summary
block. -/
theorem c3_counterexample :
    assembled (fun p => if p == summary_prompt then some "" else none) false false false = "" ∧
    assembled_claim (fun p => if p == summary_prompt then some "" else none) false false false =
      "## Summary:\n\n\n" ∧
    containsSub "## Summary:".data
      (assembled (fun p => if p == summary_prompt then some "" else none)
        false false false).data = false := by
  refine ⟨by decide, by decide, by decide⟩

/-- C3 (amended): the assembled text is the concatenation, in the fixed
order, of one `"## <Heading>:\n<body>\n\n"` block per requested section whose
generation result is non-null and non-empty; a null (or empty) result
contributes nothing and does not prevent the other sections.  In particular,
for the example map {Summary: "S", Key Points: null, Q&A: "Q"} the assembled
text contains the Summary and Questions-and-Answers headings and no
Key-Points heading. -/
theorem c3_assembler (generated : String → Option String) (kp qa ce : Bool) :
    (assembled generated kp qa ce =
      sectionBlockT "Summary" (generated summary_prompt) ++
      (if kp then sectionBlockT "Key Points" (generated key_points_prompt) else "") ++
      (if qa then sectionBlockT "Questions and Answers" (generated qa_prompt) else "") ++
      (if ce then sectionBlockT "Code Explanation" (generated code_explanation_prompt) else "")) ∧
    containsSub "## Summary:".data (assembled genEx true true false).data = true ∧
    containsSub "## Questions and Answers:".data (assembled genEx true true false).data = true ∧
    containsSub "## Key Points:".data (assembled genEx true true false).data = false := by
  refine ⟨?_, by decide, by decide, by decide⟩
  have e1 : ("## Summary:\n" : String) = "## " ++ "Summary" ++ ":\n" := rfl
  have e2 : ("## Key Points:\n" : String) = "## " ++ "Key Points" ++ ":\n" := rfl
  have e3 : ("## Questions and Answers:\n" : String) =
    "## " ++ "Questions and Answers" ++ ":\n" := rfl
  have e4 : ("## Code Explanation:\n" : String) = "## " ++ "Code Explanation" ++ ":\n" := rfl
  unfold assembled sectionBlockT
  split_ifs <;>
    simp only [e1, e2, e3, e4, String.empty_append, String.append_empty, String.append_assoc]

/-! ## C4: the download filename -/

/-- C4 counterexample: the code never sanitizes the title; for the title
`a/b` it offers the filename `a/b_summary.pdf`, not the sanitized
`ab_summary.pdf` the claim requires. -/
theorem c4_counterexample :
    offeredFileName (renderAndOffer ⟨true, true⟩ "## Summary:\nS\n\n" "a/b") =
      some "a/b_summary.pdf" ∧
    sanitize_title "a/b" ++ "_summary.pdf" = "ab_summary.pdf" ∧
    ("a/b_summary.pdf" : String) ≠ "ab_summary.pdf" := by
  refine ⟨by decide, by decide, by decide⟩

/-- C4 (amended): no sanitization is performed — for every title, clean or
not, the offered filename is the raw video title suffixed `_summary.pdf`,
the MIME type is `application/pdf`, and exactly one download is offered,
carrying `create_pdf`'s result as its data.  The raw filename coincides with
the sanitized one exactly on titles containing none of the characters
`\ / * ? : " < > |`, which the second clause records. -/
theorem c4_filename (fonts : FontEnv) (content video_title : String)
    (hc : ¬ content = "") :
    (offeredDownloads (renderAndOffer fonts content video_title) =
      [((create_pdf fonts content video_title).1,
        video_title ++ "_summary.pdf", "application/pdf")]) ∧
    ((∀ c ∈ video_title.data, illegal_filename_chars.contains c = false) →
      sanitize_title video_title = video_title) := by
  constructor
  · have hcb : (content == "") = false := by
      cases h : content == "" with
      | false => rfl
      | true => exact absurd (by simpa using h) hc
    unfold renderAndOffer create_pdf offeredDownloads
    by_cases hf : fonts.files_present = true <;> by_cases hl : fonts.load_ok = true <;>
      simp [hcb, hf, hl]
  · intro ht
    unfold sanitize_title
    have hfl : video_title.data.filter (fun c => !(illegal_filename_chars.contains c)) =
        video_title.data := by
      apply List.filter_eq_self.mpr
      intro a ha
      rw [ht a ha]
      rfl
    rw [hfl]

/-- C4 witness: the raw filename is offered even for a title full of illegal
characters, and a clean title coincides with its sanitized form. -/
theorem c4_filename_witness :
    offeredDownloads (renderAndOffer ⟨true, true⟩ "## Summary:\nS\n\n" "My: Video?") =
      [((create_pdf ⟨true, true⟩ "## Summary:\nS\n\n" "My: Video?").1,
        "My: Video?" ++ "_summary.pdf", "application/pdf")] ∧
    sanitize_title "Video" = "Video" :=
  ⟨(c4_filename ⟨true, true⟩ "## Summary:\nS\n\n" "My: Video?" (by decide)).1,
    (c4_filename ⟨true, true⟩ "## Summary:\nS\n\n" "Video" (by decide)).2 (by decide)⟩

/-! ## C5: rendering failure and the download offer -/

/-- C5 (code bug): when the font files are missing, `create_pdf` shows the
error and returns null, but the handler still calls `st.download_button`
with `data=None` — the download offer is not suppressed as the spec intends
(passing `None` as download data is invalid and aborts the page at
runtime). -/
theorem c5_download_on_failure :
    (create_pdf ⟨false, true⟩ "## Summary:\nS\n\n" "T").1 = none ∧
    renderAndOffer ⟨false, true⟩ "## Summary:\nS\n\n" "T" =
      [.markdown "## Summary:\nS\n\n",
       .errorMsg "Font files not found. Please make sure the DejaVu font files are present in the same directory as this script.",
       .downloadButton none "T_summary.pdf" "application/pdf"] := by
  refine ⟨rfl, by decide⟩

/-! ## Lemmas about the body renderer -/

theorem notTrueOfFalse {b : Bool} (h : b = false) : ¬ b = true := by
  intro ht
  rw [h] at ht
  exact Bool.noConfusion ht

theorem foldlAppendEqJoin {β : Type} (f : List Char → List β) (l : List (List Char)) :
    ∀ acc : List β, l.foldl (fun a c => a ++ f c) acc = acc ++ (l.map f).flatten := by
  induction l with
  | nil => intro acc; simp
  | cons x xs ih => intro acc; simp [ih, List.append_assoc]

theorem star_isPrefixOf (t : List Char) : "*".data.isPrefixOf ('*' :: t) = true := by
  cases t <;> rfl

theorem pyrstrip_cons_of_not_ws (c : Char) (t : List Char) (h : isPyWs c = false) :
    pyrstrip (c :: t) = c :: pyrstrip t := by
  unfold pyrstrip
  rw [List.reverse_cons, List.dropWhile_append]
  by_cases he : (t.reverse.dropWhile isPyWs).isEmpty = true
  · have h0 : t.reverse.dropWhile isPyWs = [] := by simpa using he
    simp [h0, List.dropWhile_cons, h]
  · have h0 := boolFalseOfNotTrue he
    simp [h0]

theorem pystrip_cons_of_not_ws (c : Char) (t : List Char) (h : isPyWs c = false) :
    pystrip (c :: t) = c :: pyrstrip t := by
  have h1 : pylstrip (c :: t) = c :: t := by simp [pylstrip, List.dropWhile_cons, h]
  unfold pystrip
  rw [h1, pyrstrip_cons_of_not_ws c t h]

theorem isPrefixOf_cons_of_ne {a b : Char} {as bs : List Char} (h : (a == b) = false) :
    (a :: as).isPrefixOf (b :: bs) = false := by
  show (a == b && as.isPrefixOf bs) = false
  rw [h]
  rfl

theorem fence_not_for_char (c : Char) (t : List Char) (hws : isPyWs c = false)
    (hne : ("```".data.headD ' ' == c) = false) :
    "```".data.isPrefixOf (pystrip (c :: t)) = false := by
  rw [pystrip_cons_of_not_ws _ _ hws]
  have hd : "```".data = "```".data.headD ' ' :: "``".data := rfl
  rw [hd]
  exact isPrefixOf_cons_of_ne hne

theorem renderParagraph_fence_open (st : BodyState) (f : List Char)
    (hin : st.in_code_block = false)
    (hf : "```".data.isPrefixOf (pystrip f) = true) :
    renderParagraph st f = { st with in_code_block := true } := by
  unfold renderParagraph
  rw [if_pos hf, if_neg (notTrueOfFalse hin)]

theorem renderParagraph_fence_close (st : BodyState) (f : List Char)
    (hin : st.in_code_block = true)
    (hf : "```".data.isPrefixOf (pystrip f) = true) :
    renderParagraph st f =
      { family := "DejaVu", style := "", size := 11, in_code_block := false,
        code_buffer := [], out := st.out ++ st.code_buffer.map codeElem } := by
  unfold renderParagraph
  rw [if_pos hf, if_pos hin]

theorem renderParagraph_buffering (st : BodyState) (p : List Char)
    (hin : st.in_code_block = true)
    (hf : "```".data.isPrefixOf (pystrip p) = false) :
    renderParagraph st p = { st with code_buffer := st.code_buffer ++ [p] } := by
  unfold renderParagraph
  rw [if_neg (notTrueOfFalse hf), if_pos hin]

theorem renderParagraph_question (st : BodyState) (p : List Char)
    (hin : st.in_code_block = false)
    (hq : "Question:".data.isPrefixOf p = true) :
    renderParagraph st p =
      { st with
          family := "DejaVu", style := "", size := 11,
          out := st.out ++ [⟨"DejaVu", "B", 11, p, .question⟩] } := by
  rcases (isPrefixOf_iff_append _ p).mp hq with ⟨r, rfl⟩
  have hsh : "Question:".data ++ r = 'Q' :: ("uestion:".data ++ r) := rfl
  rw [hsh] at hq ⊢
  have hf := fence_not_for_char 'Q' ("uestion:".data ++ r) (by decide) (by decide)
  unfold renderParagraph
  rw [if_neg (notTrueOfFalse hf), if_neg (notTrueOfFalse hin), if_pos hq]

theorem renderParagraph_answer (st : BodyState) (p : List Char)
    (hin : st.in_code_block = false)
    (ha : "Answer:".data.isPrefixOf p = true) :
    renderParagraph st p =
      { st with out := st.out ++ [⟨st.family, st.style, st.size, p, .answer⟩] } := by
  rcases (isPrefixOf_iff_append _ p).mp ha with ⟨r, rfl⟩
  have hsh : "Answer:".data ++ r = 'A' :: ("nswer:".data ++ r) := rfl
  rw [hsh] at ha ⊢
  have hf := fence_not_for_char 'A' ("nswer:".data ++ r) (by decide) (by decide)
  have hq : "Question:".data.isPrefixOf ('A' :: ("nswer:".data ++ r)) = false := by
    have hd : "Question:".data = 'Q' :: "uestion:".data := rfl
    rw [hd]
    exact isPrefixOf_cons_of_ne (by decide)
  unfold renderParagraph
  rw [if_neg (notTrueOfFalse hf), if_neg (notTrueOfFalse hin), if_neg (notTrueOfFalse hq),
    if_pos ha]

theorem renderParagraph_bullet (st : BodyState) (t : List Char)
    (hin : st.in_code_block = false)
    (hkp : "* Key Points:".data.isPrefixOf ('*' :: t) = false) :
    renderParagraph st ('*' :: t) =
      { st with
          family := "DejaVu", style := "", size := 11,
          out := st.out ++ [⟨"DejaVu", "", 11, "• ".data ++ pystrip t, .bullet⟩] } := by
  have hf := fence_not_for_char '*' t (by decide) (by decide)
  have hq : "Question:".data.isPrefixOf ('*' :: t) = false := by
    have hd : "Question:".data = 'Q' :: "uestion:".data := rfl
    rw [hd]
    exact isPrefixOf_cons_of_ne (by decide)
  have ha : "Answer:".data.isPrefixOf ('*' :: t) = false := by
    have hd : "Answer:".data = 'A' :: "nswer:".data := rfl
    rw [hd]
    exact isPrefixOf_cons_of_ne (by decide)
  have hs := star_isPrefixOf t
  unfold renderParagraph
  rw [if_neg (notTrueOfFalse hf), if_neg (notTrueOfFalse hin), if_neg (notTrueOfFalse hq),
    if_neg (notTrueOfFalse ha), if_pos hs, if_neg (notTrueOfFalse hkp)]
  rfl

theorem renderParagraph_keypoints (st : BodyState) (p : List Char)
    (hin : st.in_code_block = false)
    (hkp : "* Key Points:".data.isPrefixOf p = true) :
    renderParagraph st p = st := by
  rcases (isPrefixOf_iff_append _ p).mp hkp with ⟨r, rfl⟩
  have hsh : "* Key Points:".data ++ r = '*' :: (" Key Points:".data ++ r) := rfl
  rw [hsh] at hkp ⊢
  have hf := fence_not_for_char '*' (" Key Points:".data ++ r) (by decide) (by decide)
  have hq : "Question:".data.isPrefixOf ('*' :: (" Key Points:".data ++ r)) = false := by
    have hd : "Question:".data = 'Q' :: "uestion:".data := rfl
    rw [hd]
    exact isPrefixOf_cons_of_ne (by decide)
  have ha : "Answer:".data.isPrefixOf ('*' :: (" Key Points:".data ++ r)) = false := by
    have hd : "Answer:".data = 'A' :: "nswer:".data := rfl
    rw [hd]
    exact isPrefixOf_cons_of_ne (by decide)
  have hs := star_isPrefixOf (" Key Points:".data ++ r)
  unfold renderParagraph
  rw [if_neg (notTrueOfFalse hf), if_neg (notTrueOfFalse hin), if_neg (notTrueOfFalse hq),
    if_neg (notTrueOfFalse ha), if_pos hs, if_pos hkp]

theorem renderParagraphs_buffer_chain (cs : List (List Char)) :
    ∀ (st : BodyState) (f2 : List Char) (rest : List (List Char)),
      st.in_code_block = true →
      (∀ c ∈ cs, "```".data.isPrefixOf (pystrip c) = false) →
      "```".data.isPrefixOf (pystrip f2) = true →
      renderParagraphs st (cs ++ f2 :: rest) =
        renderParagraphs
          { family := "DejaVu", style := "", size := 11, in_code_block := false,
            code_buffer := [], out := st.out ++ (st.code_buffer ++ cs).map codeElem } rest := by
  induction cs with
  | nil =>
    intro st f2 rest hin hcs hf2
    show renderParagraphs (renderParagraph st f2) rest = _
    rw [renderParagraph_fence_close st f2 hin hf2]
    simp
  | cons c cs ih =>
    intro st f2 rest hin hcs hf2
    show renderParagraphs (renderParagraph st c) (cs ++ f2 :: rest) = _
    rw [renderParagraph_buffering st c hin (hcs c (by simp))]
    rw [ih { st with code_buffer := st.code_buffer ++ [c] } f2 rest hin
      (fun x hx => hcs x (by simp [hx])) hf2]
    simp [List.append_assoc]

theorem renderParagraphs_fence_block (st : BodyState) (f : List Char) (cs : List (List Char))
    (f2 : List Char) (rest : List (List Char))
    (hin : st.in_code_block = false) (hbuf : st.code_buffer = [])
    (hf : "```".data.isPrefixOf (pystrip f) = true)
    (hcs : ∀ c ∈ cs, "```".data.isPrefixOf (pystrip c) = false)
    (hf2 : "```".data.isPrefixOf (pystrip f2) = true) :
    renderParagraphs st (f :: cs ++ f2 :: rest) =
      renderParagraphs
        { family := "DejaVu", style := "", size := 11, in_code_block := false,
          code_buffer := [], out := st.out ++ cs.map codeElem } rest := by
  show renderParagraphs (renderParagraph st f) (cs ++ f2 :: rest) = _
  rw [renderParagraph_fence_open st f hin hf]
  rw [renderParagraphs_buffer_chain cs _ f2 rest rfl hcs hf2]
  simp [hbuf]

theorem renderParagraphs_unclosed_aux (tail : List (List Char)) :
    ∀ st : BodyState, st.in_code_block = true →
      (∀ c ∈ tail, "```".data.isPrefixOf (pystrip c) = false) →
      (renderParagraphs st tail).out = st.out := by
  induction tail with
  | nil => intro st _ _; rfl
  | cons c cs ih =>
    intro st hin hcs
    show (renderParagraphs (renderParagraph st c) cs).out = st.out
    rw [renderParagraph_buffering st c hin (hcs c (by simp))]
    exact ih _ hin (fun x hx => hcs x (by simp [hx]))

theorem renderParagraph_inv (st : BodyState) (p : List Char) (h : fontInv st) :
    fontInv (renderParagraph st p) ∧
      ∀ e ∈ (renderParagraph st p).out, e ∈ st.out ∨ lineOk e := by
  obtain ⟨h1, h2, h3⟩ := h
  unfold renderParagraph
  split_ifs with c1 c2 c3 c4 c5 c6 <;>
    refine ⟨by simp [fontInv, h1, h2, h3], fun e he => ?_⟩ <;>
    first
      | exact Or.inl he
      | (rw [List.mem_append] at he
         rcases he with he | he
         · exact Or.inl he
         · first
             | (rw [List.mem_singleton] at he
                subst he
                refine Or.inr ?_
                simp [lineOk, h1, h2, h3])
             | (refine Or.inr ?_
                rcases List.mem_map.mp he with ⟨l, -, rfl⟩
                simp [lineOk, codeElem]))

theorem renderParagraphs_inv (ps : List (List Char)) :
    ∀ st : BodyState, fontInv st → (∀ e ∈ st.out, lineOk e) →
      ∀ e ∈ (renderParagraphs st ps).out, lineOk e := by
  induction ps with
  | nil => intro st _ hout e he; exact hout e he
  | cons p ps ih =>
    intro st hf hout e he
    have step := renderParagraph_inv st p hf
    refine ih (renderParagraph st p) step.1 (fun x hx => ?_) e he
    rcases step.2 x hx with h | h
    · exact hout x h
    · exact h

theorem renderBody_lineOk (body : List Char) : ∀ e ∈ renderBody body, lineOk e := by
  intro e he
  exact renderParagraphs_inv (pysplit "\n".data body) initBodyState
    ⟨rfl, rfl, rfl⟩ (fun x hx => absurd hx (List.not_mem_nil x)) e he

theorem renderSection_lineOk (chunk : List Char) : ∀ e ∈ renderSection chunk, lineOk e := by
  intro e he
  unfold renderSection at he
  by_cases hb : (pystrip chunk == []) = true
  · rw [if_pos hb] at he
    exact absurd he (List.not_mem_nil e)
  · rw [if_neg hb] at he
    rcases List.mem_cons.mp he with rfl | he
    · simp [lineOk]
    · exact renderBody_lineOk _ e he

theorem renderContent_lineOk_aux (chunks : List (List Char)) :
    ∀ acc : List RenderedLine, (∀ e ∈ acc, lineOk e) →
      ∀ e ∈ chunks.foldl (fun a c => a ++ renderSection c) acc, lineOk e := by
  induction chunks with
  | nil => intro acc h e he; exact h e he
  | cons c cs ih =>
    intro acc h e he
    refine ih (acc ++ renderSection c) (fun x hx => ?_) e he
    rcases List.mem_append.mp hx with h1 | h1
    · exact h x h1
    · exact renderSection_lineOk c x h1

/-! ## C8: the document renderer's splitting and per-line rules -/

/-- C8 counterexample: a chunk of the `"## "` split that is non-empty but
whitespace-only (here the trailing `"\n\n"` chunk produced by a Summary body
ending in `"## "`) is skipped by the code (`section.strip() != ""`), while
the claim's reading renders a heading for every non-empty chunk. -/
theorem c8_counterexample :
    renderContent "## Summary:\nx## \n\n".data ≠
      renderContent_claim "## Summary:\nx## \n\n".data ∧
    pystrip "\n\n".data = [] ∧
    "\n\n".data ≠ ([] : List Char) := by
  refine ⟨by decide, by decide, by decide⟩

/-- C8 (amended): the renderer splits the assembled text on the literal
`"## "` and renders the chunks after the first; a chunk with no
non-whitespace character is skipped; any other chunk is rendered as its first
line as the section heading and the remainder as the body; within a body a
line starting with `*` becomes a bullet item (`"• "` plus the rest of the
line, `*` removed and whitespace-stripped), except that a line starting with
`"* Key Points:"` is dropped entirely; and the lines strictly between a fence
line and the closing fence line are emitted as a monospace (Courier) block. -/
theorem c8_renderer_rules :
    (∀ content, renderContent content =
        (((pysplit "## ".data content).drop 1).map renderSection).flatten) ∧
    (∀ chunk, pystrip chunk = [] → renderSection chunk = []) ∧
    (∀ chunk, pystrip chunk ≠ [] → containsSub "\n".data chunk = true →
        renderSection chunk =
          ⟨"DejaVu", "B", 12, takeUntilSub "\n".data chunk, .sectionTitle⟩ ::
            renderBody (afterFirstSub "\n".data chunk)) ∧
    (∀ chunk, pystrip chunk ≠ [] → containsSub "\n".data chunk = false →
        renderSection chunk =
          ⟨"DejaVu", "B", 12, chunk, .sectionTitle⟩ :: renderBody []) ∧
    (∀ (st : BodyState) (t : List Char), st.in_code_block = false →
        "* Key Points:".data.isPrefixOf ('*' :: t) = false →
        renderParagraph st ('*' :: t) =
          { st with
              family := "DejaVu", style := "", size := 11,
              out := st.out ++ [⟨"DejaVu", "", 11, "• ".data ++ pystrip t, .bullet⟩] }) ∧
    (∀ (st : BodyState) (p : List Char), st.in_code_block = false →
        "* Key Points:".data.isPrefixOf p = true →
        renderParagraph st p = st) ∧
    (∀ (st : BodyState) (f : List Char) (cs : List (List Char)) (f2 : List Char)
        (rest : List (List Char)),
        st.in_code_block = false → st.code_buffer = [] →
        "```".data.isPrefixOf (pystrip f) = true →
        (∀ c ∈ cs, "```".data.isPrefixOf (pystrip c) = false) →
        "```".data.isPrefixOf (pystrip f2) = true →
        renderParagraphs st (f :: cs ++ f2 :: rest) =
          renderParagraphs
            { family := "DejaVu", style := "", size := 11, in_code_block := false,
              code_buffer := [], out := st.out ++ cs.map codeElem } rest) := by
  refine ⟨?_, ?_, ?_, ?_, renderParagraph_bullet, renderParagraph_keypoints,
    renderParagraphs_fence_block⟩
  · intro content
    exact (foldlAppendEqJoin renderSection _ []).trans (List.nil_append _)
  · intro chunk h
    have hb : (pystrip chunk == []) = true := by rw [h]; rfl
    unfold renderSection
    rw [if_pos hb]
  · intro chunk hne hc
    have hb : (pystrip chunk == []) = false := by
      cases hx : pystrip chunk == [] with
      | false => rfl
      | true => exact absurd (by simpa using hx) hne
    unfold renderSection
    rw [if_neg (notTrueOfFalse hb)]
    unfold pysplit1
    rw [if_pos hc]
    rfl
  · intro chunk hne hc
    have hb : (pystrip chunk == []) = false := by
      cases hx : pystrip chunk == [] with
      | false => rfl
      | true => exact absurd (by simpa using hx) hne
    unfold renderSection
    rw [if_neg (notTrueOfFalse hb)]
    unfold pysplit1
    rw [if_neg (notTrueOfFalse hc)]
    rfl

/-- C8 witness: the rules evaluated at concrete inputs. -/
theorem c8_renderer_rules_witness :
    renderContent "## A\nx".data =
      (((pysplit "## ".data "## A\nx".data).drop 1).map renderSection).flatten ∧
    renderSection "A\nx".data =
      ⟨"DejaVu", "B", 12, "A".data, .sectionTitle⟩ :: renderBody "x".data ∧
    renderParagraph initBodyState "* item".data =
      { initBodyState with out := [⟨"DejaVu", "", 11, "• item".data, .bullet⟩] } ∧
    renderParagraph initBodyState "* Key Points: x".data = initBodyState ∧
    renderParagraphs initBodyState ["```".data, "code".data, "```".data] =
      { family := "DejaVu", style := "", size := 11, in_code_block := false,
        code_buffer := [], out := [codeElem "code".data] } := by
  refine ⟨c8_renderer_rules.1 "## A\nx".data, ?_, ?_, ?_, ?_⟩
  · exact (c8_renderer_rules.2.2.1 "A\nx".data (by decide) (by decide)).trans (by decide)
  · exact (c8_renderer_rules.2.2.2.2.1 initBodyState " item".data rfl (by decide)).trans
      (by decide)
  · exact c8_renderer_rules.2.2.2.2.2.1 initBodyState "* Key Points: x".data rfl (by decide)
  · exact (c8_renderer_rules.2.2.2.2.2.2 initBodyState "```".data ["code".data] "```".data []
      rfl rfl (by decide) (by decide) (by decide)).trans (by decide)

/-! ## C9: question and answer line styles -/

/-- C9 counterexample: in the rendered Q&A section the `Answer:` line is
emitted with the empty font style — the same regular style as plain
paragraphs — not the italic style `I` the claim requires. -/
theorem c9_counterexample :
    (renderContent "## Questions and Answers:\nQuestion: a\nAnswer: b\n\n".data).map
        (fun e => (e.kind, e.style)) =
      [(.sectionTitle, "B"), (.question, "B"), (.answer, ""), (.plain, ""), (.plain, "")] ∧
    ("" : String) ≠ "I" := by
  refine ⟨by decide, by decide⟩

/-- C9 (amended): a body line starting with `Question:` is emitted in DejaVu
bold 11; a body line starting with `Answer:` is emitted in DejaVu regular 11
— the same style as a plain paragraph, with no italic styling (the loaded
oblique font is never used in body rendering); and in every rendered document
all question lines are DejaVu-B-11 and all answer and plain lines are
DejaVu-regular-11. -/
theorem c9_line_styles :
    (∀ (st : BodyState) (p : List Char), st.in_code_block = false →
        "Question:".data.isPrefixOf p = true →
        renderParagraph st p =
          { st with
              family := "DejaVu", style := "", size := 11,
              out := st.out ++ [⟨"DejaVu", "B", 11, p, .question⟩] }) ∧
    (∀ (st : BodyState) (p : List Char), fontInv st → st.in_code_block = false →
        "Answer:".data.isPrefixOf p = true →
        renderParagraph st p =
          { st with out := st.out ++ [⟨"DejaVu", "", 11, p, .answer⟩] }) ∧
    (∀ (content : List Char) (e : RenderedLine), e ∈ renderContent content → lineOk e) := by
  refine ⟨renderParagraph_question, ?_, ?_⟩
  · intro st p hfi hin ha
    obtain ⟨h1, h2, h3⟩ := hfi
    rw [renderParagraph_answer st p hin ha, h1, h2, h3]
  · intro content e he
    unfold renderContent at he
    exact renderContent_lineOk_aux _ []
      (fun x hx => absurd hx (List.not_mem_nil x)) e he

/-- C9 witness: the answer line of the rendered example document satisfies
the regular-style discipline. -/
theorem c9_line_styles_witness :
    lineOk ⟨"DejaVu", "", 11, "Answer: b".data, .answer⟩ :=
  c9_line_styles.2.2 "## Questions and Answers:\nQuestion: a\nAnswer: b\n\n".data
    ⟨"DejaVu", "", 11, "Answer: b".data, .answer⟩ (by decide)

/-! ## C10: an unclosed fence drops its buffered lines -/

/-- C10: once a fence line opens a code block, if no further line of the
section closes it, nothing more is emitted: the lines after the fence are
buffered and the buffer is discarded when the section ends, so they appear
nowhere in the rendered output, neither as code nor as plain paragraphs. -/
theorem c10_unclosed_fence :
    (∀ (st : BodyState) (f : List Char) (tail : List (List Char)),
        st.in_code_block = false →
        "```".data.isPrefixOf (pystrip f) = true →
        (∀ c ∈ tail, "```".data.isPrefixOf (pystrip c) = false) →
        (renderParagraphs st (f :: tail)).out = st.out) ∧
    (∀ (body f : List Char) (tail : List (List Char)),
        pysplit "\n".data body = f :: tail →
        "```".data.isPrefixOf (pystrip f) = true →
        (∀ c ∈ tail, "```".data.isPrefixOf (pystrip c) = false) →
        renderBody body = []) := by
  have h1 : ∀ (st : BodyState) (f : List Char) (tail : List (List Char)),
      st.in_code_block = false →
      "```".data.isPrefixOf (pystrip f) = true →
      (∀ c ∈ tail, "```".data.isPrefixOf (pystrip c) = false) →
      (renderParagraphs st (f :: tail)).out = st.out := by
    intro st f tail hin hf htail
    show (renderParagraphs (renderParagraph st f) tail).out = st.out
    rw [renderParagraph_fence_open st f hin hf]
    exact renderParagraphs_unclosed_aux tail _ rfl htail
  refine ⟨h1, ?_⟩
  intro body f tail hsplit hf htail
  unfold renderBody
  rw [hsplit]
  exact h1 initBodyState f tail rfl hf htail

/-- C10 witness: a section body that opens a fence and never closes it
renders to nothing. -/
theorem c10_unclosed_fence_witness :
    renderBody "```\nfoo = 1\nbar = 2".data = [] :=
  c10_unclosed_fence.2 "```\nfoo = 1\nbar = 2".data "```".data
    ["foo = 1".data, "bar = 2".data] (by decide) (by decide) (by decide)

end YTApp
